import Mathlib

/-!
Verification of the HappyPotato OAuth token-lifecycle core.

The definitions below are a shallow embedding of:
  - the Supabase SQL function consume_oauth_state over the oauth_states table
    (state store, OAUTH_AUTH_INTEGRATION doc),
  - the Supabase SQL function upsert_user_api_token over the user_profiles table
    (token store, FIX_RLS_FOR_REFRESH_TOKENS migration),
  - getValidAccessToken and updateApiToken from src/lib/auth.ts
    (token lifecycle manager),
  - exchangeCodeForToken and handleLegacySubmit from src/pages/OAuthPage.tsx
    (flow controller), modelled as effect traces.

Timestamps are integers (milliseconds); user ids and tokens are strings.
Nullable columns and optional JS values are Option; JS string truthiness
(null / undefined / empty string are falsy) is jsTruthy.
-/

namespace HappyPotato

/-- A row of the oauth_states table. -/
structure OAuthStateRec where
  state_token : String
  user_id : String
  created_at : Int
  used_at : Option Int
  expires_at : Int
  is_used : Bool
deriving Repr, DecidableEq

abbrev StateStore := List OAuthStateRec

/-- The row returned by the SQL function consume_oauth_state. -/
structure ConsumeResult where
  user_id : Option String
  is_valid : Bool
  error_message : Option String
deriving Repr, DecidableEq

/-- The UPDATE in consume_oauth_state: SET is_used = TRUE, used_at = NOW()
WHERE state_token = tok, applied to one row. -/
def markUsed (now : Int) (tok : String) (s : OAuthStateRec) : OAuthStateRec :=
  if s.state_token == tok then { s with is_used := true, used_at := some now } else s

/-- SQL function consume_oauth_state(p_state_token): look the token up;
not found, already used and expired are reported in that order; on success
the row is marked used and the bound user id is returned. -/
def consume_oauth_state (now : Int) (store : StateStore) (tok : String) :
    ConsumeResult × StateStore :=
  match store.find? (fun s => s.state_token == tok) with
  | none => (⟨none, false, some "Invalid state token"⟩, store)
  | some r =>
    if r.is_used then (⟨none, false, some "State token already used"⟩, store)
    else if r.expires_at < now then (⟨none, false, some "State token expired"⟩, store)
    else (⟨some r.user_id, true, none⟩, store.map (markUsed now tok))

/-- A row of the user_profiles table (the nullable columns touched by the
token functions). -/
structure UserProfile where
  id : String
  username : Option String
  api_token : Option String
  refresh_token : Option String
  access_token_expires_at : Option Int
deriving Repr, DecidableEq

abbrev ProfileTable := List UserProfile

/-- SELECT ... FROM user_profiles WHERE id = uid. -/
def readProfile (tbl : ProfileTable) (uid : String) : Option UserProfile :=
  tbl.find? (fun p => p.id == uid)

/-- SQL COALESCE on two nullable values. -/
def coalesce {α : Type} (a b : Option α) : Option α :=
  match a with
  | some x => some x
  | none => b

/-- SQL function upsert_user_api_token: INSERT the row, ON CONFLICT (id)
DO UPDATE keeping an existing username, overwriting api_token, and
coalescing refresh_token and access_token_expires_at with the prior
stored values. -/
def upsert_user_api_token (tbl : ProfileTable) (p_user_id p_username p_api_token : String)
    (p_refresh_token : Option String) (p_access_token_expires_at : Option Int) :
    ProfileTable :=
  if tbl.any (fun p => p.id == p_user_id) then
    tbl.map (fun p =>
      if p.id == p_user_id then
        { p with
          username := coalesce p.username (some p_username),
          api_token := some p_api_token,
          refresh_token := coalesce p_refresh_token p.refresh_token,
          access_token_expires_at :=
            coalesce p_access_token_expires_at p.access_token_expires_at }
      else p)
  else
    tbl ++ [⟨p_user_id, some p_username, some p_api_token,
            p_refresh_token, p_access_token_expires_at⟩]

/-- Projection of read(owner) onto the access token column. -/
def readAccess (tbl : ProfileTable) (uid : String) : Option String :=
  (readProfile tbl uid).bind (fun p => p.api_token)

/-- Projection of read(owner) onto the refresh token column. -/
def readRefresh (tbl : ProfileTable) (uid : String) : Option String :=
  (readProfile tbl uid).bind (fun p => p.refresh_token)

/-- Projection of read(owner) onto the expiry column. -/
def readExpiry (tbl : ProfileTable) (uid : String) : Option Int :=
  (readProfile tbl uid).bind (fun p => p.access_token_expires_at)

/-- Projection of read(owner) onto the username column. -/
def readUsername (tbl : ProfileTable) (uid : String) : Option String :=
  (readProfile tbl uid).bind (fun p => p.username)

/-- JavaScript truthiness of an optional string: null, undefined and the
empty string are falsy. -/
def jsTruthy : Option String → Bool
  | none => false
  | some s => !(s == "")

/-- ensureUserProfile in auth.ts: insert a default row (api_token null)
when none exists for the authenticated user. -/
def ensureUserProfile (tbl : ProfileTable) (uid : String) (defaultUsername : String) :
    ProfileTable :=
  if tbl.any (fun p => p.id == uid) then tbl
  else tbl ++ [⟨uid, some defaultUsername, none, none, none⟩]

/-- The expiry computed in updateApiToken:
expiresIn ? new Date(Date.now() + expiresIn * 1000) : null.
A JS number of 0 is falsy, so expiresIn = 0 yields null. -/
def computeExpiresAt (now : Int) (expiresIn : Option Int) : Option Int :=
  match expiresIn with
  | some n => if n == 0 then none else some (now + n * 1000)
  | none => none

/-- The partial UPDATE built by updateApiToken: api_token always, the
refresh token only when the argument is truthy, the expiry only when the
computed value is non-null; unmentioned columns keep their stored value. -/
def applyUpdateData (p : UserProfile) (apiToken : String) (refreshToken : Option String)
    (expiresAt : Option Int) : UserProfile :=
  { p with
    api_token := some apiToken,
    refresh_token := if jsTruthy refreshToken then refreshToken else p.refresh_token,
    access_token_expires_at :=
      match expiresAt with
      | some e => some e
      | none => p.access_token_expires_at }

/-- updateApiToken in auth.ts for an authenticated user uid: ensure the
profile row, then run the partial UPDATE. dbFails models the database
layer failing (error or zero rows updated), in which case success is
false and the table is unchanged. -/
def updateApiToken (now : Int) (tbl : ProfileTable) (uid defaultUsername : String)
    (dbFails : Bool) (apiToken : String) (refreshToken : Option String)
    (expiresIn : Option Int) : Bool × ProfileTable :=
  if dbFails then (false, tbl)
  else
    let tbl1 := ensureUserProfile tbl uid defaultUsername
    let expiresAt := computeExpiresAt now expiresIn
    (true, tbl1.map (fun p =>
      if p.id == uid then applyUpdateData p apiToken refreshToken expiresAt else p))

/-- The body returned by the refresh endpoint on success. -/
structure RefreshResponse where
  access_token : String
  refresh_token : Option String
  expires_in : Option Int
deriving Repr, DecidableEq

/-- Outcome of the single network call POST /api/refresh-hubspot-token. -/
inductive RefreshOutcome where
  | fail : RefreshOutcome
  | ok : RefreshResponse → RefreshOutcome
deriving Repr, DecidableEq

/-- Result of getValidAccessToken: the returned token or error, the number
of refresh network calls performed, and the table after the call. -/
structure GVATResult where
  token : Option String
  error : Option String
  refreshCalls : Nat
  table : ProfileTable
deriving Repr, DecidableEq

/-- The staleness test in getValidAccessToken:
isExpiredOrExpiringSoon = !expiresAt || expiresAt <= now + 5 minutes. -/
def isExpiredOrExpiringSoon (now : Int) (expiresAt : Option Int) : Bool :=
  match expiresAt with
  | none => true
  | some e => decide (e ≤ now + 5 * 60 * 1000)

/-- getValidAccessToken in auth.ts for authenticated user uid. The network
outcome of the refresh call and the database outcome of the save are
parameters; the refresh call counter records whether the network was hit. -/
def getValidAccessToken (now : Int) (tbl : ProfileTable) (uid defaultUsername : String)
    (net : RefreshOutcome) (dbFails : Bool) : GVATResult :=
  match readProfile tbl uid with
  | none => ⟨none, some "Failed to fetch user profile", 0, tbl⟩
  | some profile =>
    if !(jsTruthy profile.api_token) then
      ⟨none, some "No HubSpot access token found. Please authenticate with HubSpot.",
       0, tbl⟩
    else if !(isExpiredOrExpiringSoon now profile.access_token_expires_at) then
      ⟨profile.api_token, none, 0, tbl⟩
    else if !(jsTruthy profile.refresh_token) then
      ⟨none,
       some "Access token expired and no refresh token available. Please re-authenticate with HubSpot.",
       0, tbl⟩
    else
      match net with
      | .fail =>
        ⟨none, some "Failed to refresh access token. Please re-authenticate with HubSpot.",
         1, tbl⟩
      | .ok resp =>
        let saved := updateApiToken now tbl uid defaultUsername dbFails
          resp.access_token resp.refresh_token resp.expires_in
        ⟨some resp.access_token, none, 1, saved.2⟩

/-- Observable effects of the flow controller in OAuthPage.tsx, in the
order the code performs them. -/
inductive Effect where
  | consumeState : String → Effect
  | exchangeCode : String → Effect
  | localStorageSet : String → String → Effect
  | saveTokensForUser : String → Effect
  | saveTokensCurrentUser : Effect
  | fetchAccountInfo : Effect
  | showSuccess : String → Effect
  | showError : String → Effect
  | redirectToProvider : String → String → String → Effect
deriving Repr, DecidableEq

/-- The body returned by the exchange_code proxy; access_token may be
missing or empty on a malformed response. -/
structure ExchangeResponse where
  access_token : Option String
  refresh_token : Option String
  expires_in : Option Int
deriving Repr, DecidableEq

/-- The conditional localStorage.setItem of the refresh token in
exchangeCodeForToken: only when data.refresh_token is truthy. -/
def refreshWrite : Option String → List Effect
  | some r => if r == "" then [] else [Effect.localStorageSet "refresh_token" r]
  | none => []

/-- The token-store save chosen in exchangeCodeForToken: with a
state-derived userId it calls updateApiTokenForUser, otherwise
updateApiToken on the current authenticated user. -/
def saveStep : Option String → Effect
  | some uid => Effect.saveTokensForUser uid
  | none => Effect.saveTokensCurrentUser

/-- What exchangeCodeForToken does after the token-store save: on save
failure show the error, otherwise fetch account info and show success or
the missing-portal error. -/
def afterSave (saveOk : Bool) (portalId : Option String) : List Effect :=
  if !saveOk then
    [Effect.showError "🍠 Token received but failed to save to your profile. Please try again."]
  else
    Effect.fetchAccountInfo ::
    (match portalId with
     | some pid => [Effect.showSuccess pid]
     | none => [Effect.showError "🥔 Oops! Could not find your potato farm ID. Please try again!"])

/-- exchangeCodeForToken in OAuthPage.tsx as an effect trace: POST the
code, and when an access token comes back write it (and any refresh
token) to localStorage, then save to the token store, then the
after-save steps; a missing or empty access token lands in the catch. -/
def exchangeCodeForToken (code : String) (userId : Option String)
    (resp : ExchangeResponse) (saveOk : Bool) (portalId : Option String) : List Effect :=
  Effect.exchangeCode code ::
  (match resp.access_token with
   | some a =>
     if a == "" then
       [Effect.showError "🍠 Something went wrong in the potato field! Please try again."]
     else
       Effect.localStorageSet "access_token" a ::
       (refreshWrite resp.refresh_token ++
        saveStep userId :: afterSave saveOk portalId)
   | none =>
     [Effect.showError "🍠 Something went wrong in the potato field! Please try again."])

/-- handleLegacySubmit in OAuthPage.tsx: with a code query parameter it
exchanges it directly (no state validation, current session owner);
without one it redirects the browser to the HubSpot authorization
endpoint with client_id, redirect_uri and scope oauth. -/
def handleLegacySubmit (codeParam : Option String) (clientId redirectUri : String)
    (resp : ExchangeResponse) (saveOk : Bool) (portalId : Option String) : List Effect :=
  match codeParam with
  | some code => exchangeCodeForToken code none resp saveOk portalId
  | none => [Effect.redirectToProvider clientId redirectUri "oauth"]

/-! Helper lemmas shared by several claims. -/

/-- Mapping a row-updating function over a table moves find? to the
updated row, when the update fixes non-matching rows and preserves
matching. -/
theorem find_map_of_update {α : Type} (p : α → Bool) (g : α → α) (l : List α) (r : α)
    (huc : ∀ x, p x = false → g x = x)
    (hpres : ∀ x, p x = true → p (g x) = true)
    (h : l.find? p = some r) :
    (l.map g).find? p = some (g r) := by
  induction l with
  | nil => simp [List.find?] at h
  | cons a as ih =>
    cases hpa : p a with
    | true =>
      rw [List.find?_cons_of_pos _ hpa] at h
      have har : a = r := by injection h
      simp only [List.map_cons]
      rw [List.find?_cons_of_pos _ (hpres a hpa), har]
    | false =>
      have hpa2 : ¬ p a = true := by simp [hpa]
      rw [List.find?_cons_of_neg _ hpa2] at h
      simp only [List.map_cons]
      rw [huc a hpa]
      rw [List.find?_cons_of_neg _ hpa2]
      exact ih h

/-! C1. -/

/-- C1 counterexample: a state token that is expired (expires_at 5 < now 10)
but already marked used makes consume return AlreadyUsed, not Expired, so
the expiry outcome does not hold regardless of the used flag. -/
theorem consume_used_expired_counterexample :
    (5 : Int) < 10 ∧
    (consume_oauth_state 10 [⟨"s2", "u1", 0, some 3, 5, true⟩] "s2").1.error_message ≠
      some "State token expired" ∧
    (consume_oauth_state 10 [⟨"s2", "u1", 0, some 3, 5, true⟩] "s2").1.error_message =
      some "State token already used" := by decide

/-- C1 (amended): for a stored state token whose expires_at is in the past,
consume returns Expired when the token is not yet marked used; when it is
already marked used, the used check wins and consume returns AlreadyUsed. -/
theorem consume_expired_classification (now : Int) (store : StateStore) (tok : String)
    (r : OAuthStateRec)
    (hfind : store.find? (fun s => s.state_token == tok) = some r)
    (hexp : r.expires_at < now) :
    (r.is_used = false →
      (consume_oauth_state now store tok).1 = ⟨none, false, some "State token expired"⟩) ∧
    (r.is_used = true →
      (consume_oauth_state now store tok).1 = ⟨none, false, some "State token already used"⟩) := by
  unfold consume_oauth_state
  rw [hfind]
  constructor
  · intro hu
    simp [hu, hexp]
  · intro hu
    simp [hu]

/-- C1 witness: a concrete unused token expired at 5, consumed at 10,
yields Expired. -/
theorem consume_expired_classification_witness :
    (consume_oauth_state 10 [⟨"s1", "u1", 0, none, 5, false⟩] "s1").1 =
      ⟨none, false, some "State token expired"⟩ :=
  (consume_expired_classification 10 [⟨"s1", "u1", 0, none, 5, false⟩] "s1"
      ⟨"s1", "u1", 0, none, 5, false⟩ (by decide) (by decide)).1 rfl

/-! C2. -/

/-- C2: if a consume of a state token succeeds, a second consume of the
same token against the resulting store fails with AlreadyUsed and returns
no owner, whatever time the second call happens at. -/
theorem consume_second_call_already_used (now1 now2 : Int) (store : StateStore) (tok : String)
    (h : ((consume_oauth_state now1 store tok).1).is_valid = true) :
    (consume_oauth_state now2 (consume_oauth_state now1 store tok).2 tok).1 =
      ⟨none, false, some "State token already used"⟩ := by
  unfold consume_oauth_state at h
  cases hfind : store.find? (fun s => s.state_token == tok) with
  | none =>
    rw [hfind] at h
    simp at h
  | some r =>
    rw [hfind] at h
    cases hu : r.is_used with
    | true =>
      simp [hu] at h
    | false =>
      by_cases hexp : r.expires_at < now1
      · simp [hu, hexp] at h
      · have hsnd : (consume_oauth_state now1 store tok).2 = store.map (markUsed now1 tok) := by
          unfold consume_oauth_state
          rw [hfind]
          simp [hu, hexp]
        have hfind2 : (store.map (markUsed now1 tok)).find? (fun s => s.state_token == tok)
            = some (markUsed now1 tok r) :=
          find_map_of_update _ _ _ _
            (by intro x hx; simp [markUsed, hx])
            (by intro x hx; simp [markUsed, hx]) hfind
        have hused : (markUsed now1 tok r).is_used = true := by
          have hst : (r.state_token == tok) = true := by
            simpa using List.find?_some hfind
          simp [markUsed, hst]
        rw [hsnd]
        unfold consume_oauth_state
        rw [hfind2]
        simp [hused]

/-- C2 witness: a concrete fresh token consumed twice; the first call
succeeds and the second returns AlreadyUsed with no owner. -/
theorem consume_second_call_already_used_witness :
    (consume_oauth_state 3 (consume_oauth_state 1 [⟨"s3", "u7", 0, none, 100, false⟩] "s3").2
        "s3").1 = ⟨none, false, some "State token already used"⟩ :=
  consume_second_call_already_used 1 3 [⟨"s3", "u7", 0, none, 100, false⟩] "s3" (by decide)

/-- Reading back after an upsert onto an existing row yields exactly the
ON CONFLICT update of that row. -/
theorem readProfile_upsert_existing (tbl : ProfileTable) (owner u a : String)
    (r : Option String) (e : Option Int) (p0 : UserProfile)
    (h : readProfile tbl owner = some p0) :
    readProfile (upsert_user_api_token tbl owner u a r e) owner =
      some { p0 with
        username := coalesce p0.username (some u),
        api_token := some a,
        refresh_token := coalesce r p0.refresh_token,
        access_token_expires_at := coalesce e p0.access_token_expires_at } := by
  have hfind : tbl.find? (fun p => p.id == owner) = some p0 := h
  have hid : (p0.id == owner) = true := by simpa using List.find?_some hfind
  have hany : tbl.any (fun p => p.id == owner) = true :=
    List.any_eq_true.2 ⟨p0, List.mem_of_find?_eq_some hfind, hid⟩
  have hmap := find_map_of_update (fun p => p.id == owner)
    (fun p =>
      if p.id == owner then
        { p with
          username := coalesce p.username (some u),
          api_token := some a,
          refresh_token := coalesce r p.refresh_token,
          access_token_expires_at := coalesce e p.access_token_expires_at }
      else p)
    tbl p0
    (by intro x hx; simp [hx])
    (by intro x hx; simp [hx])
    hfind
  unfold upsert_user_api_token readProfile
  rw [hany]
  simp only [if_true]
  rw [hmap]
  simp [hid]

/-- find? skips a whole first chunk in which nothing matches. -/
theorem find_append_of_none {α : Type} (p : α → Bool) (l1 l2 : List α)
    (h : l1.find? p = none) : (l1 ++ l2).find? p = l2.find? p := by
  induction l1 with
  | nil => simp
  | cons x xs ih =>
    cases hpx : p x with
    | true =>
      rw [List.find?_cons_of_pos _ hpx] at h
      exact absurd h (by simp)
    | false =>
      have hpx2 : ¬ p x = true := by simp [hpx]
      rw [List.find?_cons_of_neg _ hpx2] at h
      simp only [List.cons_append]
      rw [List.find?_cons_of_neg _ hpx2]
      exact ih h

/-! C3. -/

/-- C3: on an existing row, upsert always overwrites the access token with
the supplied value, while the refresh token and expiry take a supplied
value and keep the stored one when omitted; in particular the two
read-back scenarios upsert(A1,R1,T1); upsert(A2) gives (A2,R1,T1) and
upsert(A1); upsert(A2,R2) gives (A2,R2). -/
theorem upsert_access_overwritten_options_coalesced (tbl : ProfileTable) (owner : String)
    (p0 : UserProfile) (h : readProfile tbl owner = some p0) :
    (∀ u a r e,
      readAccess (upsert_user_api_token tbl owner u a r e) owner = some a ∧
      (∀ x, r = some x →
        readRefresh (upsert_user_api_token tbl owner u a r e) owner = some x) ∧
      (r = none →
        readRefresh (upsert_user_api_token tbl owner u a r e) owner = p0.refresh_token) ∧
      (∀ x, e = some x →
        readExpiry (upsert_user_api_token tbl owner u a r e) owner = some x) ∧
      (e = none →
        readExpiry (upsert_user_api_token tbl owner u a r e) owner =
          p0.access_token_expires_at)) ∧
    (∀ u1 u2 a1 a2 r1 t1,
      readAccess (upsert_user_api_token
        (upsert_user_api_token tbl owner u1 a1 (some r1) (some t1))
        owner u2 a2 none none) owner = some a2 ∧
      readRefresh (upsert_user_api_token
        (upsert_user_api_token tbl owner u1 a1 (some r1) (some t1))
        owner u2 a2 none none) owner = some r1 ∧
      readExpiry (upsert_user_api_token
        (upsert_user_api_token tbl owner u1 a1 (some r1) (some t1))
        owner u2 a2 none none) owner = some t1) ∧
    (∀ u1 u2 a1 a2 r2,
      readAccess (upsert_user_api_token
        (upsert_user_api_token tbl owner u1 a1 none none)
        owner u2 a2 (some r2) none) owner = some a2 ∧
      readRefresh (upsert_user_api_token
        (upsert_user_api_token tbl owner u1 a1 none none)
        owner u2 a2 (some r2) none) owner = some r2) := by
  refine ⟨?_, ?_, ?_⟩
  · intro u a r e
    have h1 := readProfile_upsert_existing tbl owner u a r e p0 h
    refine ⟨?_, ?_, ?_, ?_, ?_⟩
    · simp [readAccess, h1]
    · intro x hx
      subst hx
      simp [readRefresh, h1, coalesce]
    · intro hx
      subst hx
      simp [readRefresh, h1, coalesce]
    · intro x hx
      subst hx
      simp [readExpiry, h1, coalesce]
    · intro hx
      subst hx
      simp [readExpiry, h1, coalesce]
  · intro u1 u2 a1 a2 r1 t1
    have h1 := readProfile_upsert_existing tbl owner u1 a1 (some r1) (some t1) p0 h
    have h2 := readProfile_upsert_existing _ owner u2 a2 none none _ h1
    exact ⟨by simp [readAccess, h2], by simp [readRefresh, h2, coalesce],
      by simp [readExpiry, h2, coalesce]⟩
  · intro u1 u2 a1 a2 r2
    have h1 := readProfile_upsert_existing tbl owner u1 a1 none none p0 h
    have h2 := readProfile_upsert_existing _ owner u2 a2 (some r2) none _ h1
    exact ⟨by simp [readAccess, h2], by simp [readRefresh, h2, coalesce]⟩

/-- C3 witness: concrete two-step upsert on an existing row with the
omitted fields preserved from the first call. -/
theorem upsert_access_overwritten_options_coalesced_witness :
    readAccess (upsert_user_api_token
      (upsert_user_api_token [⟨"o1", none, none, none, none⟩] "o1" "nm" "A1"
        (some "R1") (some 100))
      "o1" "nm" "A2" none none) "o1" = some "A2" ∧
    readRefresh (upsert_user_api_token
      (upsert_user_api_token [⟨"o1", none, none, none, none⟩] "o1" "nm" "A1"
        (some "R1") (some 100))
      "o1" "nm" "A2" none none) "o1" = some "R1" ∧
    readExpiry (upsert_user_api_token
      (upsert_user_api_token [⟨"o1", none, none, none, none⟩] "o1" "nm" "A1"
        (some "R1") (some 100))
      "o1" "nm" "A2" none none) "o1" = some 100 :=
  (upsert_access_overwritten_options_coalesced [⟨"o1", none, none, none, none⟩] "o1"
    ⟨"o1", none, none, none, none⟩ (by decide)).2.1 "nm" "nm" "A1" "A2" "R1" 100

/-! C10. -/

/-- C10: upsert never changes a stored non-null username even when a
different one is supplied; the supplied username is used exactly when no
row exists for the owner or the stored username is null. -/
theorem upsert_keeps_existing_username (tbl : ProfileTable) (owner u a : String)
    (r : Option String) (e : Option Int) :
    (∀ p0 u0, readProfile tbl owner = some p0 → p0.username = some u0 →
      readUsername (upsert_user_api_token tbl owner u a r e) owner = some u0) ∧
    (∀ p0, readProfile tbl owner = some p0 → p0.username = none →
      readUsername (upsert_user_api_token tbl owner u a r e) owner = some u) ∧
    (readProfile tbl owner = none →
      readUsername (upsert_user_api_token tbl owner u a r e) owner = some u) := by
  refine ⟨?_, ?_, ?_⟩
  · intro p0 u0 h hu0
    have h1 := readProfile_upsert_existing tbl owner u a r e p0 h
    simp [readUsername, h1, hu0, coalesce]
  · intro p0 h hu0
    have h1 := readProfile_upsert_existing tbl owner u a r e p0 h
    simp [readUsername, h1, hu0, coalesce]
  · intro h
    have hfind : tbl.find? (fun p => p.id == owner) = none := h
    have hany : tbl.any (fun p => p.id == owner) = false := by
      cases hc : tbl.any (fun p => p.id == owner) with
      | false => rfl
      | true =>
        obtain ⟨x, hmem, hx⟩ := List.any_eq_true.1 hc
        exact absurd hx (by simpa using List.find?_eq_none.1 hfind x hmem)
    unfold upsert_user_api_token readUsername readProfile
    rw [hany]
    simp only [Bool.false_eq_true, if_false]
    rw [find_append_of_none _ _ _ hfind]
    simp

/-- C10 witness: a stored username alice survives an upsert that supplies
bob; an absent row takes the supplied username. -/
theorem upsert_keeps_existing_username_witness :
    readUsername (upsert_user_api_token [⟨"o2", some "alice", none, none, none⟩]
      "o2" "bob" "A" none none) "o2" = some "alice" ∧
    readUsername (upsert_user_api_token [] "o2" "bob" "A" none none) "o2" = some "bob" :=
  ⟨(upsert_keeps_existing_username [⟨"o2", some "alice", none, none, none⟩]
      "o2" "bob" "A" none none).1
      ⟨"o2", some "alice", none, none, none⟩ "alice" (by decide) rfl,
    (upsert_keeps_existing_username [] "o2" "bob" "A" none none).2.2 rfl⟩

/-! C4. -/

/-- C4: when the stored record has an access token and an expiry more than
5 minutes in the future, getValidAccessToken returns the stored access
token, makes no refresh network call and leaves the table unchanged. -/
theorem gvat_fresh_returns_stored_token (now : Int) (tbl : ProfileTable) (uid dn : String)
    (net : RefreshOutcome) (dbFails : Bool) (p : UserProfile) (e : Int)
    (hp : readProfile tbl uid = some p)
    (htok : jsTruthy p.api_token = true)
    (hexp : p.access_token_expires_at = some e)
    (hfresh : now + 5 * 60 * 1000 < e) :
    getValidAccessToken now tbl uid dn net dbFails = ⟨p.api_token, none, 0, tbl⟩ := by
  have hstale : isExpiredOrExpiringSoon now p.access_token_expires_at = false := by
    rw [hexp]
    unfold isExpiredOrExpiringSoon
    simp only [decide_eq_false_iff_not]
    omega
  unfold getValidAccessToken
  rw [hp]
  simp [htok, hstale]

/-- C4 witness: a token expiring far in the future is returned as stored,
with zero refresh calls, even though the network oracle would fail. -/
theorem gvat_fresh_returns_stored_token_witness :
    getValidAccessToken 0 [⟨"u4", some "nm", some "AT", none, some 10000000⟩]
      "u4" "dn" .fail false =
      ⟨some "AT", none, 0, [⟨"u4", some "nm", some "AT", none, some 10000000⟩]⟩ :=
  gvat_fresh_returns_stored_token 0 [⟨"u4", some "nm", some "AT", none, some 10000000⟩]
    "u4" "dn" .fail false ⟨"u4", some "nm", some "AT", none, some 10000000⟩ 10000000
    (by decide) (by decide) rfl (by decide)

/-! C5. -/

/-- C5: a stale record (expiry absent or in the past) with no refresh token
makes getValidAccessToken fail with the no-refresh-token error, with no
refresh network call and the table unchanged. -/
theorem gvat_stale_without_refresh_token (now : Int) (tbl : ProfileTable) (uid dn : String)
    (net : RefreshOutcome) (dbFails : Bool) (p : UserProfile)
    (hp : readProfile tbl uid = some p)
    (htok : jsTruthy p.api_token = true)
    (hstale : p.access_token_expires_at = none ∨
      ∃ e, p.access_token_expires_at = some e ∧ e < now)
    (hnor : jsTruthy p.refresh_token = false) :
    getValidAccessToken now tbl uid dn net dbFails =
      ⟨none,
       some "Access token expired and no refresh token available. Please re-authenticate with HubSpot.",
       0, tbl⟩ := by
  have hs : isExpiredOrExpiringSoon now p.access_token_expires_at = true := by
    rcases hstale with h0 | ⟨e, he, hlt⟩
    · rw [h0]
      rfl
    · rw [he]
      unfold isExpiredOrExpiringSoon
      simp only [decide_eq_true_eq]
      omega
  unfold getValidAccessToken
  rw [hp]
  simp [htok, hs, hnor]

/-- C5 witness: an expired record without refresh token yields the
no-refresh-token error and an unchanged table. -/
theorem gvat_stale_without_refresh_token_witness :
    getValidAccessToken 10 [⟨"u5", some "nm", some "AT", none, some 0⟩]
      "u5" "dn" .fail false =
      ⟨none,
       some "Access token expired and no refresh token available. Please re-authenticate with HubSpot.",
       0, [⟨"u5", some "nm", some "AT", none, some 0⟩]⟩ :=
  gvat_stale_without_refresh_token 10 [⟨"u5", some "nm", some "AT", none, some 0⟩]
    "u5" "dn" .fail false ⟨"u5", some "nm", some "AT", none, some 0⟩
    (by decide) (by decide) (Or.inr ⟨0, rfl, by decide⟩) (by decide)

/-! C6. -/

/-- C6: when the refresh network call fails, getValidAccessToken leaves
the stored record untouched in every case, and on the path that actually
performed the refresh call it returns no token and the refresh-failed
error. -/
theorem gvat_refresh_failure_keeps_store (now : Int) (tbl : ProfileTable) (uid dn : String)
    (dbFails : Bool) :
    (getValidAccessToken now tbl uid dn .fail dbFails).table = tbl ∧
    ((getValidAccessToken now tbl uid dn .fail dbFails).refreshCalls = 1 →
      (getValidAccessToken now tbl uid dn .fail dbFails).token = none ∧
      (getValidAccessToken now tbl uid dn .fail dbFails).error =
        some "Failed to refresh access token. Please re-authenticate with HubSpot.") := by
  unfold getValidAccessToken
  cases hp : readProfile tbl uid with
  | none => simp
  | some p =>
    cases h1 : jsTruthy p.api_token with
    | false => simp [h1]
    | true =>
      cases h2 : isExpiredOrExpiringSoon now p.access_token_expires_at with
      | false => simp [h1, h2]
      | true =>
        cases h3 : jsTruthy p.refresh_token with
        | false => simp [h1, h2, h3]
        | true => simp [h1, h2, h3]

/-- C6 witness: a concrete stale record with a refresh token and a failing
refresh call; the table is unchanged and the refresh failure is surfaced. -/
theorem gvat_refresh_failure_keeps_store_witness :
    (getValidAccessToken 1000000 [⟨"u6", some "nm", some "AT", some "RT", some 0⟩]
       "u6" "dn" .fail false).table = [⟨"u6", some "nm", some "AT", some "RT", some 0⟩] ∧
    (getValidAccessToken 1000000 [⟨"u6", some "nm", some "AT", some "RT", some 0⟩]
       "u6" "dn" .fail false).token = none ∧
    (getValidAccessToken 1000000 [⟨"u6", some "nm", some "AT", some "RT", some 0⟩]
       "u6" "dn" .fail false).error =
      some "Failed to refresh access token. Please re-authenticate with HubSpot." :=
  ⟨(gvat_refresh_failure_keeps_store 1000000
      [⟨"u6", some "nm", some "AT", some "RT", some 0⟩] "u6" "dn" false).1,
   ((gvat_refresh_failure_keeps_store 1000000
      [⟨"u6", some "nm", some "AT", some "RT", some 0⟩] "u6" "dn" false).2 (by decide)).1,
   ((gvat_refresh_failure_keeps_store 1000000
      [⟨"u6", some "nm", some "AT", some "RT", some 0⟩] "u6" "dn" false).2 (by decide)).2⟩

/-! C8. -/

/-- C8: when the refresh call succeeds but the database save fails, the
path that performed the refresh still returns the new access token with a
nil error, and the table keeps the old stale record. -/
theorem gvat_save_failure_swallowed (now : Int) (tbl : ProfileTable) (uid dn : String)
    (resp : RefreshResponse)
    (hcall : (getValidAccessToken now tbl uid dn (.ok resp) true).refreshCalls = 1) :
    getValidAccessToken now tbl uid dn (.ok resp) true =
      ⟨some resp.access_token, none, 1, tbl⟩ := by
  unfold getValidAccessToken at hcall ⊢
  cases hp : readProfile tbl uid with
  | none =>
    rw [hp] at hcall
    simp at hcall
  | some p =>
    rw [hp] at hcall
    cases h1 : jsTruthy p.api_token with
    | false => simp [h1] at hcall
    | true =>
      cases h2 : isExpiredOrExpiringSoon now p.access_token_expires_at with
      | false => simp [h1, h2] at hcall
      | true =>
        cases h3 : jsTruthy p.refresh_token with
        | false => simp [h1, h2, h3] at hcall
        | true => simp [h1, h2, h3, updateApiToken]

/-- C8 witness: a stale record, a successful refresh and a failing save;
the new token is returned with no error and the table is unchanged. -/
theorem gvat_save_failure_swallowed_witness :
    getValidAccessToken 1000000 [⟨"u8", some "nm", some "AT", some "RT", some 0⟩]
      "u8" "dn" (.ok ⟨"NEW", some "NR", some 3600⟩) true =
      ⟨some "NEW", none, 1, [⟨"u8", some "nm", some "AT", some "RT", some 0⟩]⟩ :=
  gvat_save_failure_swallowed 1000000 [⟨"u8", some "nm", some "AT", some "RT", some 0⟩]
    "u8" "dn" ⟨"NEW", some "NR", some 3600⟩ (by decide)

/-! C7. -/

/-- The exchange step never consumes a state token. -/
theorem consumeState_not_in_exchange (code : String) (userId : Option String)
    (resp : ExchangeResponse) (saveOk : Bool) (portalId : Option String) (t : String) :
    Effect.consumeState t ∉ exchangeCodeForToken code userId resp saveOk portalId := by
  obtain ⟨acc, rt, ei⟩ := resp
  cases acc with
  | none => simp [exchangeCodeForToken]
  | some a =>
    by_cases ha : a = ""
    · simp [exchangeCodeForToken, ha]
    · cases rt with
      | none =>
        cases userId <;> cases saveOk <;> cases portalId <;>
          simp [exchangeCodeForToken, refreshWrite, saveStep, afterSave, ha]
      | some r =>
        by_cases hr : r = "" <;> cases userId <;> cases saveOk <;> cases portalId <;>
          simp [exchangeCodeForToken, refreshWrite, saveStep, afterSave, ha, hr]

/-- Without a state-derived user id the exchange step never saves under a
state-derived owner. -/
theorem saveForUser_not_in_exchange_none (code : String) (resp : ExchangeResponse)
    (saveOk : Bool) (portalId : Option String) (uid : String) :
    Effect.saveTokensForUser uid ∉ exchangeCodeForToken code none resp saveOk portalId := by
  obtain ⟨acc, rt, ei⟩ := resp
  cases acc with
  | none => simp [exchangeCodeForToken]
  | some a =>
    by_cases ha : a = ""
    · simp [exchangeCodeForToken, ha]
    · cases rt with
      | none =>
        cases saveOk <;> cases portalId <;>
          simp [exchangeCodeForToken, refreshWrite, saveStep, afterSave, ha]
      | some r =>
        by_cases hr : r = "" <;> cases saveOk <;> cases portalId <;>
          simp [exchangeCodeForToken, refreshWrite, saveStep, afterSave, ha, hr]

/-- A successful exchange without a state-derived user id saves under the
currently authenticated session owner. -/
theorem currentUser_save_in_exchange (code : String) (resp : ExchangeResponse)
    (saveOk : Bool) (portalId : Option String)
    (htok : jsTruthy resp.access_token = true) :
    Effect.saveTokensCurrentUser ∈ exchangeCodeForToken code none resp saveOk portalId := by
  obtain ⟨acc, rt, ei⟩ := resp
  cases acc with
  | none => simp [jsTruthy] at htok
  | some a =>
    have ha : ¬ a = "" := by simpa [jsTruthy] using htok
    simp [exchangeCodeForToken, ha, saveStep]

/-- C7: the legacy flow with a code query parameter goes directly to the
code exchange, consumes no state token, and saves for the currently
authenticated session owner rather than any state-derived owner; with no
code it redirects the browser to the provider authorization endpoint. -/
theorem legacy_flow_behavior (codeParam : Option String) (clientId redirectUri : String)
    (resp : ExchangeResponse) (saveOk : Bool) (portalId : Option String) :
    (∀ c, codeParam = some c →
      handleLegacySubmit codeParam clientId redirectUri resp saveOk portalId =
        exchangeCodeForToken c none resp saveOk portalId ∧
      (∀ t, Effect.consumeState t ∉
        handleLegacySubmit codeParam clientId redirectUri resp saveOk portalId) ∧
      (∀ uid, Effect.saveTokensForUser uid ∉
        handleLegacySubmit codeParam clientId redirectUri resp saveOk portalId) ∧
      (jsTruthy resp.access_token = true →
        Effect.saveTokensCurrentUser ∈
          handleLegacySubmit codeParam clientId redirectUri resp saveOk portalId)) ∧
    (codeParam = none →
      handleLegacySubmit codeParam clientId redirectUri resp saveOk portalId =
        [Effect.redirectToProvider clientId redirectUri "oauth"]) := by
  constructor
  · intro c hc
    subst hc
    refine ⟨rfl, ?_, ?_, ?_⟩
    · intro t
      exact consumeState_not_in_exchange c none resp saveOk portalId t
    · intro uid
      exact saveForUser_not_in_exchange_none c resp saveOk portalId uid
    · intro htok
      exact currentUser_save_in_exchange c resp saveOk portalId htok
  · intro hc
    subst hc
    rfl

/-- C7 witness: a concrete legacy submission with a code exchanges it for
the session owner without touching state, and without a code it redirects
to the provider. -/
theorem legacy_flow_behavior_witness :
    handleLegacySubmit (some "C1") "cid" "ru" ⟨some "AT", some "RT", some 3600⟩
      true (some "p1") =
      exchangeCodeForToken "C1" none ⟨some "AT", some "RT", some 3600⟩ true (some "p1") ∧
    Effect.consumeState "sX" ∉
      handleLegacySubmit (some "C1") "cid" "ru" ⟨some "AT", some "RT", some 3600⟩
        true (some "p1") ∧
    Effect.saveTokensCurrentUser ∈
      handleLegacySubmit (some "C1") "cid" "ru" ⟨some "AT", some "RT", some 3600⟩
        true (some "p1") ∧
    handleLegacySubmit none "cid" "ru" ⟨some "AT", some "RT", some 3600⟩
      true (some "p1") = [Effect.redirectToProvider "cid" "ru" "oauth"] := by
  have h := legacy_flow_behavior (some "C1") "cid" "ru"
    ⟨some "AT", some "RT", some 3600⟩ true (some "p1")
  have h0 := h.1 "C1" rfl
  exact ⟨h0.1, h0.2.1 "sX", h0.2.2.2 (by decide),
    (legacy_flow_behavior none "cid" "ru" ⟨some "AT", some "RT", some 3600⟩
      true (some "p1")).2 rfl⟩

/-! C9. -/

/-- C9: on every successful code exchange the access token, and the
refresh token when the provider returned one, are written to localStorage
strictly before the token-store save, whatever the save outcome is. -/
theorem exchange_localStorage_before_save (code : String) (userId : Option String)
    (a : String) (resp : ExchangeResponse) (saveOk : Bool) (portalId : Option String)
    (hacc : resp.access_token = some a) (hne : a ≠ "") :
    ∃ pre rest,
      exchangeCodeForToken code userId resp saveOk portalId =
        pre ++ saveStep userId :: rest ∧
      Effect.localStorageSet "access_token" a ∈ pre ∧
      (∀ r, resp.refresh_token = some r → r ≠ "" →
        Effect.localStorageSet "refresh_token" r ∈ pre) := by
  refine ⟨Effect.exchangeCode code :: Effect.localStorageSet "access_token" a ::
    refreshWrite resp.refresh_token, afterSave saveOk portalId, ?_, ?_, ?_⟩
  · unfold exchangeCodeForToken
    rw [hacc]
    simp [hne]
  · simp
  · intro r hr hrne
    rw [hr]
    simp [refreshWrite, hrne]

/-- C9 witness: a concrete exchange whose database save fails still writes
both tokens to localStorage before the save step. -/
theorem exchange_localStorage_before_save_witness :
    ∃ pre rest,
      exchangeCodeForToken "C2" none ⟨some "AT2", some "RT2", some 3600⟩ false (some "p") =
        pre ++ saveStep none :: rest ∧
      Effect.localStorageSet "access_token" "AT2" ∈ pre ∧
      Effect.localStorageSet "refresh_token" "RT2" ∈ pre := by
  obtain ⟨pre, rest, h1, h2, h3⟩ := exchange_localStorage_before_save "C2" none "AT2"
    ⟨some "AT2", some "RT2", some 3600⟩ false (some "p") rfl (by decide)
  exact ⟨pre, rest, h1, h2, h3 "RT2" rfl (by decide)⟩

end HappyPotato
